import Mathlib

/-!
Shallow embedding of the `tmuxdev` CLI (both shipped variants: the
`src/tmuxdev.ts` variant, called variant A below, and the second shipped
variant, called variant B).  External processes (pwd, git, tmux, the
interactive prompts) are modelled by passing their results as explicit
inputs; the tmux server is modelled as a `World` holding the list of live
session names, and each invocation is a pure function from that world,
the environment and the user's prompt answers to a trace of issued tmux
commands, a final world and an exit outcome.
-/

namespace Tmuxdev

/-- Decidable equality for `Except`, used to evaluate claims on concrete
command results. -/
instance {ε α : Type} [DecidableEq ε] [DecidableEq α] : DecidableEq (Except ε α) := fun a b =>
  match a, b with
  | Except.ok x, Except.ok y =>
    if h : x = y then isTrue (by rw [h]) else isFalse (by intro hc; cases hc; exact h rfl)
  | Except.error x, Except.error y =>
    if h : x = y then isTrue (by rw [h]) else isFalse (by intro hc; cases hc; exact h rfl)
  | Except.ok _, Except.error _ => isFalse (by intro hc; cases hc)
  | Except.error _, Except.ok _ => isFalse (by intro hc; cases hc)

/-! JavaScript string helpers used by the source (`trim`, `split`, `pop`,
falsiness of the empty string), written over the character list so that
they evaluate by kernel reduction. -/

/-- Characters removed by JavaScript's `String.prototype.trim` (the ones
relevant to process output). -/
def isJsSpace (c : Char) : Bool :=
  c == ' ' || c == '\n' || c == '\t' || c == '\r'

/-- Trim leading and trailing whitespace from a character list. -/
def trimChars (l : List Char) : List Char :=
  ((l.dropWhile isJsSpace).reverse.dropWhile isJsSpace).reverse

/-- JavaScript `s.trim()`. -/
def jsTrim (s : String) : String := ⟨trimChars s.data⟩

/-- Accumulator worker for `jsSplit`. -/
def splitAux (sep : Char) : List Char → List Char → List (List Char)
  | [], acc => [acc.reverse]
  | c :: rest, acc =>
    if c == sep then acc.reverse :: splitAux sep rest []
    else splitAux sep rest (c :: acc)

/-- JavaScript `s.split(sep)` for a one-character separator: on the empty
string it yields `[""]`, and separators at the ends yield empty segments,
exactly as in JavaScript. -/
def jsSplit (sep : Char) (s : String) : List String :=
  (splitAux sep s.data []).map fun l => ⟨l⟩

/-! The environment resolver (`getFolderName`, `getBranchName`,
`getSessionName`).  The working-directory query result and the branch
query result are inputs: `pwdStdout` is the stdout of `pwd`, and
`branchResult` is `ok stdout` when `git branch --show-current` succeeded
and `error msg` when it threw. -/

/-- `getFolderName` from the source: trim the `pwd` output, split on `/`,
take the last segment (`pop()`), and fall back to `"tmuxdev"` when that
segment is the empty string (JavaScript `|| 'tmuxdev'`). -/
def getFolderName (pwdStdout : String) : String :=
  let path := jsTrim pwdStdout
  let seg := (jsSplit '/' path).getLastD ""
  if seg = "" then "tmuxdev" else seg

/-- `getBranchName` from the source: the trimmed stdout of the branch
query on success, `""` when the query threw (not a git repo, no git). -/
def getBranchName (branchResult : Except String String) : String :=
  match branchResult with
  | Except.ok out => jsTrim out
  | Except.error _ => ""

/-- `getSessionName` from the source: `folder-branch` when the branch name
is non-empty (JavaScript truthiness), otherwise just `folder`. -/
def getSessionName (pwdStdout : String) (branchResult : Except String String) : String :=
  let folderName := getFolderName pwdStdout
  let branchName := getBranchName branchResult
  if branchName ≠ "" then folderName ++ "-" ++ branchName
  else folderName

/-- The raw last `/`-separated segment of the trimmed working-directory
path, before any fallback is applied; used to state claims about the
resolver. -/
def lastSegment (pwdStdout : String) : String :=
  (jsSplit '/' (jsTrim pwdStdout)).getLastD ""

/-! The tmux server model.  `World` is the externally shared state: whether
tmux is usable at all and the ordered list of live session names.  The five
tmux commands the program issues are modelled as `Except`-valued functions
on it, erroring exactly when the real command exits non-zero. -/

/-- The external tmux state observed and mutated by the program. -/
structure World where
  tmuxInstalled : Bool
  registry : List String
  deriving DecidableEq

/-- `tmux has-session -t name`: succeeds iff tmux runs and the session is
live. -/
def tmuxHasSession (w : World) (name : String) : Except String Unit :=
  if w.tmuxInstalled ∧ name ∈ w.registry then Except.ok ()
  else Except.error "has-session failed"

/-- Join session names with newlines, as tmux prints them. -/
def joinLines : List String → String
  | [] => ""
  | [s] => s
  | s :: rest => s ++ "\n" ++ joinLines rest

/-- `tmux list-sessions -F "#{session_name}"`: prints one name per line;
exits non-zero when tmux is unusable or no server is running (no
sessions). -/
def tmuxListSessions (w : World) : Except String String :=
  if w.tmuxInstalled ∧ w.registry ≠ [] then Except.ok (joinLines w.registry)
  else Except.error "list-sessions failed"

/-- `tmux new-session -d -s name ...`: succeeds iff tmux runs and no
session with that name is live; appends the new name to the registry. -/
def tmuxNewSession (w : World) (name : String) : Except String World :=
  if w.tmuxInstalled ∧ name ∉ w.registry then
    Except.ok { w with registry := w.registry ++ [name] }
  else Except.error "new-session failed"

/-- `tmux kill-session -t name`: succeeds iff the session is live; removes
it from the registry. -/
def tmuxKillSession (w : World) (name : String) : Except String World :=
  if w.tmuxInstalled ∧ name ∈ w.registry then
    Except.ok { w with registry := w.registry.filter fun s => decide (s ≠ name) }
  else Except.error "kill-session failed"

/-- `tmux send-keys -t name ...`: succeeds iff the session is live. -/
def tmuxSendKeys (w : World) (name : String) : Except String Unit :=
  if w.tmuxInstalled ∧ name ∈ w.registry then Except.ok ()
  else Except.error "send-keys failed"

/-! The registry adapters from the source.  Each wraps one external call in
`try`/`catch`; the call's result is the explicit argument. -/

/-- `sessionExists` from the source: `true` when `tmux has-session`
succeeded, `false` when it threw for any reason (tool missing, no such
session); the failure is never propagated. -/
def sessionExists (result : Except String Unit) : Bool :=
  match result with
  | Except.ok _ => true
  | Except.error _ => false

/-- `getAllSessions` from the source: on success, trim the output, split on
newlines and drop blank lines (JavaScript `.filter(s => s)`); on any
failure return the empty list. -/
def getAllSessions (result : Except String String) : List String :=
  match result with
  | Except.ok out => (jsSplit '\n' (jsTrim out)).filter fun s => decide (s ≠ "")
  | Except.error _ => []

/-- `attachSession` from the source, viewed as what its caller observes:
the external `tmux attach-session` call either returned (exit code 0,
the detach convention) or threw (carrying the non-zero exit code), and the
surrounding `try { ... } catch (error) { }` with an empty handler returns
normally in both cases. -/
def attachSession (attachResult : Except Nat Unit) : Except Nat Unit :=
  match attachResult with
  | Except.ok _ => Except.ok ()
  | Except.error _ => Except.ok ()

/-! The lifecycle controller.  An invocation is modelled as a pure function
from the world, the environment query results, the parsed command line and
the user's prompt answers to a `RunResult`: the ordered trace of tmux
commands issued, the final world, and how the process terminated.  A prompt
answer of `none` models an interrupted prompt (the inquirer promise
rejected, e.g. on Ctrl+C); `some v` models an answer `v`. -/

/-- One tmux command issued by the program, in order. -/
inductive Effect where
  | queryHasSession (name : String)
  | queryListSessions
  | newSession (name : String) (initialCommand : Option String)
  | sendKeys (name : String) (keys : String)
  | attach (name : String)
  | kill (name : String)
  deriving DecidableEq

/-- Whether an effect is the existence query. -/
def Effect.isExistsQuery : Effect → Bool
  | Effect.queryHasSession _ => true
  | _ => false

/-- Whether an effect mutates the external registry. -/
def Effect.isMutation : Effect → Bool
  | Effect.newSession _ _ => true
  | Effect.sendKeys _ _ => true
  | Effect.kill _ => true
  | _ => false

/-- The `ActionChoice` union type from the source. -/
inductive ActionChoice where
  | attachCurrent
  | createCurrent
  | selectExisting
  | killSession
  | exit
  deriving DecidableEq

/-- The user's answers to the six prompts an invocation may present;
`none` means the prompt was interrupted. -/
structure Answers where
  create : Option Bool
  action : Option ActionChoice
  attachNow : Option Bool
  selectedSession : Option String
  sessionToKill : Option String
  confirmKill : Option Bool
  deriving DecidableEq

/-- Answers where every prompt, if reached, is interrupted. -/
def allCancelled : Answers := ⟨none, none, none, none, none, none⟩

/-- How the process terminated: a normal return from `main`, an explicit
`process.exit(0)` on a caught prompt interruption, the explicit
`process.exit(1)` on an unknown command, or a rejection that escaped `main`
and was logged by the top-level `main().catch(console.error)` handler
(which still lets the process exit with code 0). -/
inductive ExitOutcome where
  | normal
  | exitZero
  | exitOne
  | errorLogged
  deriving DecidableEq

/-- The process exit status for each outcome. -/
def exitCode : ExitOutcome → Nat
  | ExitOutcome.exitOne => 1
  | _ => 0

/-- The observable result of one invocation. -/
structure RunResult where
  trace : List Effect
  world : World
  outcome : ExitOutcome
  deriving DecidableEq

/-- `createSession` of variant A: one `tmux new-session` carrying
`pnpm dev` as the initial command.  Returns the effects issued, the world
afterwards, and whether the call succeeded (on failure the thrown error
propagates out of `main`). -/
def createSessionA (w : World) (sessionName : String) : List Effect × World × Bool :=
  match tmuxNewSession w sessionName with
  | Except.ok w' => ([Effect.newSession sessionName (some "pnpm dev")], w', true)
  | Except.error _ => ([Effect.newSession sessionName (some "pnpm dev")], w, false)

/-- `createSession` of variant B: a bare `tmux new-session` followed by
`tmux send-keys ... 'npm run dev' Enter`. -/
def createSessionB (w : World) (sessionName : String) : List Effect × World × Bool :=
  match tmuxNewSession w sessionName with
  | Except.error _ => ([Effect.newSession sessionName none], w, false)
  | Except.ok w' =>
    match tmuxSendKeys w' sessionName with
    | Except.ok _ =>
      ([Effect.newSession sessionName none, Effect.sendKeys sessionName "npm run dev"], w', true)
    | Except.error _ =>
      ([Effect.newSession sessionName none, Effect.sendKeys sessionName "npm run dev"], w', false)

/-- The interactive-mode choice list, built once from the single `exists`
result and `getAllSessions` (identical in both variants). -/
def buildChoices (existsFlag : Bool) (allSessions : List String) : List ActionChoice :=
  (if existsFlag then [ActionChoice.attachCurrent] else [ActionChoice.createCurrent]) ++
  (if allSessions.length > 0 then [ActionChoice.selectExisting, ActionChoice.killSession] else []) ++
  [ActionChoice.exit]

/-- Interactive mode of variant A.  Only the main menu prompt is wrapped in
`try`/`catch` (caught interruption: message plus `process.exit(0)`); an
interruption of any later prompt rejects out of `main` and is logged by the
top-level handler. -/
def interactiveA (w : World) (sessionName : String) (existsFlag : Bool) (ans : Answers) :
    RunResult :=
  let allSessions := getAllSessions (tmuxListSessions w)
  let _choices := buildChoices existsFlag allSessions
  match ans.action with
  | none => ⟨[Effect.queryListSessions], w, ExitOutcome.exitZero⟩
  | some ActionChoice.attachCurrent =>
    ⟨[Effect.queryListSessions, Effect.attach sessionName], w, ExitOutcome.normal⟩
  | some ActionChoice.createCurrent =>
    match createSessionA w sessionName with
    | (ce, w', true) =>
      match ans.attachNow with
      | none => ⟨Effect.queryListSessions :: ce, w', ExitOutcome.errorLogged⟩
      | some true =>
        ⟨Effect.queryListSessions :: (ce ++ [Effect.attach sessionName]), w', ExitOutcome.normal⟩
      | some false => ⟨Effect.queryListSessions :: ce, w', ExitOutcome.normal⟩
    | (ce, w', false) => ⟨Effect.queryListSessions :: ce, w', ExitOutcome.errorLogged⟩
  | some ActionChoice.selectExisting =>
    match ans.selectedSession with
    | none => ⟨[Effect.queryListSessions], w, ExitOutcome.errorLogged⟩
    | some sel => ⟨[Effect.queryListSessions, Effect.attach sel], w, ExitOutcome.normal⟩
  | some ActionChoice.killSession =>
    match ans.sessionToKill with
    | none => ⟨[Effect.queryListSessions], w, ExitOutcome.errorLogged⟩
    | some target =>
      match ans.confirmKill with
      | none => ⟨[Effect.queryListSessions], w, ExitOutcome.errorLogged⟩
      | some false => ⟨[Effect.queryListSessions], w, ExitOutcome.normal⟩
      | some true =>
        match tmuxKillSession w target with
        | Except.ok w' => ⟨[Effect.queryListSessions, Effect.kill target], w', ExitOutcome.normal⟩
        | Except.error _ =>
          ⟨[Effect.queryListSessions, Effect.kill target], w, ExitOutcome.errorLogged⟩
  | some ActionChoice.exit => ⟨[Effect.queryListSessions], w, ExitOutcome.normal⟩

/-- Interactive mode of variant B: every prompt is wrapped in `try`/`catch`,
so any interruption prints a message and calls `process.exit(0)`. -/
def interactiveB (w : World) (sessionName : String) (existsFlag : Bool) (ans : Answers) :
    RunResult :=
  let allSessions := getAllSessions (tmuxListSessions w)
  let _choices := buildChoices existsFlag allSessions
  match ans.action with
  | none => ⟨[Effect.queryListSessions], w, ExitOutcome.exitZero⟩
  | some ActionChoice.attachCurrent =>
    ⟨[Effect.queryListSessions, Effect.attach sessionName], w, ExitOutcome.normal⟩
  | some ActionChoice.createCurrent =>
    match createSessionB w sessionName with
    | (ce, w', true) =>
      match ans.attachNow with
      | none => ⟨Effect.queryListSessions :: ce, w', ExitOutcome.exitZero⟩
      | some true =>
        ⟨Effect.queryListSessions :: (ce ++ [Effect.attach sessionName]), w', ExitOutcome.normal⟩
      | some false => ⟨Effect.queryListSessions :: ce, w', ExitOutcome.normal⟩
    | (ce, w', false) => ⟨Effect.queryListSessions :: ce, w', ExitOutcome.errorLogged⟩
  | some ActionChoice.selectExisting =>
    match ans.selectedSession with
    | none => ⟨[Effect.queryListSessions], w, ExitOutcome.exitZero⟩
    | some sel => ⟨[Effect.queryListSessions, Effect.attach sel], w, ExitOutcome.normal⟩
  | some ActionChoice.killSession =>
    match ans.sessionToKill with
    | none => ⟨[Effect.queryListSessions], w, ExitOutcome.exitZero⟩
    | some target =>
      match ans.confirmKill with
      | none => ⟨[Effect.queryListSessions], w, ExitOutcome.exitZero⟩
      | some false => ⟨[Effect.queryListSessions], w, ExitOutcome.normal⟩
      | some true =>
        match tmuxKillSession w target with
        | Except.ok w' => ⟨[Effect.queryListSessions, Effect.kill target], w', ExitOutcome.normal⟩
        | Except.error _ =>
          ⟨[Effect.queryListSessions, Effect.kill target], w, ExitOutcome.errorLogged⟩
  | some ActionChoice.exit => ⟨[Effect.queryListSessions], w, ExitOutcome.normal⟩

/-- `main` of variant A: dispatch on `argv._[0]` (`start`/`s`,
`attach`/`a`, `help`/`h` or a help flag); anything else — including no
command at all and unrecognized commands — falls through to the
interactive menu. -/
def mainA (w : World) (pwdStdout : String) (branchResult : Except String String)
    (command : Option String) (helpFlag : Bool) (ans : Answers) : RunResult :=
  let sessionName := getSessionName pwdStdout branchResult
  let existsFlag := sessionExists (tmuxHasSession w sessionName)
  let t0 : List Effect := [Effect.queryHasSession sessionName]
  if command == some "start" || command == some "s" then
    if existsFlag then ⟨t0 ++ [Effect.attach sessionName], w, ExitOutcome.normal⟩
    else
      match createSessionA w sessionName with
      | (ce, w', true) => ⟨t0 ++ ce ++ [Effect.attach sessionName], w', ExitOutcome.normal⟩
      | (ce, w', false) => ⟨t0 ++ ce, w', ExitOutcome.errorLogged⟩
  else if command == some "attach" || command == some "a" then
    if existsFlag then ⟨t0 ++ [Effect.attach sessionName], w, ExitOutcome.normal⟩
    else
      match ans.create with
      | none => ⟨t0, w, ExitOutcome.errorLogged⟩
      | some false => ⟨t0, w, ExitOutcome.normal⟩
      | some true =>
        match createSessionA w sessionName with
        | (ce, w', true) => ⟨t0 ++ ce ++ [Effect.attach sessionName], w', ExitOutcome.normal⟩
        | (ce, w', false) => ⟨t0 ++ ce, w', ExitOutcome.errorLogged⟩
  else if command == some "help" || command == some "h" || helpFlag then
    ⟨t0, w, ExitOutcome.normal⟩
  else
    let r := interactiveA w sessionName existsFlag ans
    ⟨t0 ++ r.trace, r.world, r.outcome⟩

/-- JavaScript falsiness of `argv._[0]`: absent or the empty string. -/
def isFalsy (command : Option String) : Bool :=
  match command with
  | none => true
  | some c => c == ""

/-- The commands variant B recognizes (everything that does not reach its
`Unknown command` branch). -/
def isKnownCommandB (command : Option String) (helpFlag : Bool) : Bool :=
  isFalsy command || command == some "start" || command == some "s" ||
  command == some "attach" || command == some "a" ||
  command == some "menu" || command == some "m" ||
  command == some "help" || command == some "h" || helpFlag

/-- `main` of variant B: no command defaults to start behavior; `menu`/`m`
reaches the interactive menu; an unrecognized command prints an error and
calls `process.exit(1)`. -/
def mainB (w : World) (pwdStdout : String) (branchResult : Except String String)
    (command : Option String) (helpFlag : Bool) (ans : Answers) : RunResult :=
  let sessionName := getSessionName pwdStdout branchResult
  let existsFlag := sessionExists (tmuxHasSession w sessionName)
  let t0 : List Effect := [Effect.queryHasSession sessionName]
  if isFalsy command then
    if existsFlag then ⟨t0 ++ [Effect.attach sessionName], w, ExitOutcome.normal⟩
    else
      match createSessionB w sessionName with
      | (ce, w', true) => ⟨t0 ++ ce ++ [Effect.attach sessionName], w', ExitOutcome.normal⟩
      | (ce, w', false) => ⟨t0 ++ ce, w', ExitOutcome.errorLogged⟩
  else if command == some "start" || command == some "s" then
    if existsFlag then ⟨t0 ++ [Effect.attach sessionName], w, ExitOutcome.normal⟩
    else
      match createSessionB w sessionName with
      | (ce, w', true) => ⟨t0 ++ ce ++ [Effect.attach sessionName], w', ExitOutcome.normal⟩
      | (ce, w', false) => ⟨t0 ++ ce, w', ExitOutcome.errorLogged⟩
  else if command == some "attach" || command == some "a" then
    if existsFlag then ⟨t0 ++ [Effect.attach sessionName], w, ExitOutcome.normal⟩
    else
      match ans.create with
      | none => ⟨t0, w, ExitOutcome.exitZero⟩
      | some false => ⟨t0, w, ExitOutcome.normal⟩
      | some true =>
        match createSessionB w sessionName with
        | (ce, w', true) => ⟨t0 ++ ce ++ [Effect.attach sessionName], w', ExitOutcome.normal⟩
        | (ce, w', false) => ⟨t0 ++ ce, w', ExitOutcome.errorLogged⟩
  else if command == some "menu" || command == some "m" then
    let r := interactiveB w sessionName existsFlag ans
    ⟨t0 ++ r.trace, r.world, r.outcome⟩
  else if command == some "help" || command == some "h" || helpFlag then
    ⟨t0, w, ExitOutcome.normal⟩
  else
    ⟨t0, w, ExitOutcome.exitOne⟩

/-! Helper lemmas. -/

/-- Appending to a non-empty string yields a non-empty string. -/
theorem append_ne_empty_left (s t : String) (h : s ≠ "") : s ++ t ≠ "" := by
  intro he
  apply h
  obtain ⟨l⟩ := s
  have hd := congrArg String.data he
  simp only [String.data_append] at hd
  have hl : l = [] := (List.append_eq_nil.mp (by simpa using hd)).1
  simp [hl]

/-- `getFolderName` is the last path segment with the `"tmuxdev"` fallback. -/
theorem getFolderName_eq (p : String) :
    getFolderName p = if lastSegment p = "" then "tmuxdev" else lastSegment p := rfl

/-- `getSessionName` appends the branch suffix exactly when the branch name
is non-empty. -/
theorem getSessionName_eq (p : String) (b : Except String String) :
    getSessionName p b =
      if getBranchName b ≠ "" then getFolderName p ++ "-" ++ getBranchName b
      else getFolderName p := rfl

/-- When tmux is installed, a false existence result means the name is not
in the registry. -/
theorem notMem_of_sessionExists_false (w : World) (n : String)
    (hinst : w.tmuxInstalled = true)
    (hno : sessionExists (tmuxHasSession w n) = false) : n ∉ w.registry := by
  intro hmem
  simp [sessionExists, tmuxHasSession, hinst, hmem] at hno

/-- Variant A's create succeeds when tmux is installed and the name is
fresh, committing the new session. -/
theorem createSessionA_ok (w : World) (n : String) (hinst : w.tmuxInstalled = true)
    (hnm : n ∉ w.registry) :
    createSessionA w n =
      ([Effect.newSession n (some "pnpm dev")],
       { w with registry := w.registry ++ [n] }, true) := by
  simp [createSessionA, tmuxNewSession, hinst, hnm]

/-- Variant B's create succeeds when tmux is installed and the name is
fresh, committing the new session and sending the launch command. -/
theorem createSessionB_ok (w : World) (n : String) (hinst : w.tmuxInstalled = true)
    (hnm : n ∉ w.registry) :
    createSessionB w n =
      ([Effect.newSession n none, Effect.sendKeys n "npm run dev"],
       { w with registry := w.registry ++ [n] }, true) := by
  simp [createSessionB, tmuxNewSession, tmuxSendKeys, hinst, hnm]

/-- The effects issued by variant A's create contain no existence query. -/
theorem createSessionA_fst_no_exists (w : World) (n : String) :
    ((createSessionA w n).1).countP Effect.isExistsQuery = 0 := by
  unfold createSessionA
  split <;> simp [Effect.isExistsQuery]

/-- The effects issued by variant B's create contain no existence query. -/
theorem createSessionB_fst_no_exists (w : World) (n : String) :
    ((createSessionB w n).1).countP Effect.isExistsQuery = 0 := by
  unfold createSessionB
  split
  · simp [Effect.isExistsQuery]
  · split <;> simp [Effect.isExistsQuery]

/-- Evaluation rule for `isExistsQuery` on the existence query. -/
theorem isExistsQuery_queryHasSession (n : String) :
    (Effect.queryHasSession n).isExistsQuery = true := rfl

/-- Evaluation rule for `isExistsQuery` on the list query. -/
theorem isExistsQuery_queryListSessions :
    (Effect.queryListSessions).isExistsQuery = false := rfl

/-- Evaluation rule for `isExistsQuery` on session creation. -/
theorem isExistsQuery_newSession (n : String) (c : Option String) :
    (Effect.newSession n c).isExistsQuery = false := rfl

/-- Evaluation rule for `isExistsQuery` on key sending. -/
theorem isExistsQuery_sendKeys (n k : String) :
    (Effect.sendKeys n k).isExistsQuery = false := rfl

/-- Evaluation rule for `isExistsQuery` on attach. -/
theorem isExistsQuery_attach (n : String) :
    (Effect.attach n).isExistsQuery = false := rfl

/-- Evaluation rule for `isExistsQuery` on kill. -/
theorem isExistsQuery_kill (n : String) :
    (Effect.kill n).isExistsQuery = false := rfl

/-- Variant A's interactive mode never issues an existence query. -/
theorem interactiveA_trace_no_exists (w : World) (n : String) (e : Bool) (ans : Answers) :
    ((interactiveA w n e ans).trace).countP Effect.isExistsQuery = 0 := by
  rcases hA : createSessionA w n with ⟨ce, w2, ok⟩
  have hce : ce.countP Effect.isExistsQuery = 0 := by
    have h2 := createSessionA_fst_no_exists w n
    rw [hA] at h2
    exact h2
  unfold interactiveA
  rcases ha : ans.action with _ | a
  · simp [ha, Effect.isExistsQuery]
  cases a
  case attachCurrent => simp [ha, Effect.isExistsQuery]
  case createCurrent =>
    cases ok <;> rcases han : ans.attachNow with _ | (_ | _) <;>
      simp [ha, han, hA, hce, Effect.isExistsQuery, List.countP_cons, List.countP_append]
  case selectExisting =>
    rcases hs : ans.selectedSession with _ | s <;> simp [ha, hs, Effect.isExistsQuery]
  case killSession =>
    rcases hk : ans.sessionToKill with _ | t
    · simp [ha, hk, Effect.isExistsQuery]
    rcases hc : ans.confirmKill with _ | (_ | _)
    · simp [ha, hk, hc, Effect.isExistsQuery]
    · simp [ha, hk, hc, Effect.isExistsQuery]
    · rcases hK : tmuxKillSession w t with w3 | w3 <;>
        simp [ha, hk, hc, hK, Effect.isExistsQuery]
  case exit => simp [ha, Effect.isExistsQuery]

/-- Variant B's interactive mode never issues an existence query. -/
theorem interactiveB_trace_no_exists (w : World) (n : String) (e : Bool) (ans : Answers) :
    ((interactiveB w n e ans).trace).countP Effect.isExistsQuery = 0 := by
  rcases hA : createSessionB w n with ⟨ce, w2, ok⟩
  have hce : ce.countP Effect.isExistsQuery = 0 := by
    have h2 := createSessionB_fst_no_exists w n
    rw [hA] at h2
    exact h2
  unfold interactiveB
  rcases ha : ans.action with _ | a
  · simp [ha, Effect.isExistsQuery]
  cases a
  case attachCurrent => simp [ha, Effect.isExistsQuery]
  case createCurrent =>
    cases ok <;> rcases han : ans.attachNow with _ | (_ | _) <;>
      simp [ha, han, hA, hce, Effect.isExistsQuery, List.countP_cons, List.countP_append]
  case selectExisting =>
    rcases hs : ans.selectedSession with _ | s <;> simp [ha, hs, Effect.isExistsQuery]
  case killSession =>
    rcases hk : ans.sessionToKill with _ | t
    · simp [ha, hk, Effect.isExistsQuery]
    rcases hc : ans.confirmKill with _ | (_ | _)
    · simp [ha, hk, hc, Effect.isExistsQuery]
    · simp [ha, hk, hc, Effect.isExistsQuery]
    · rcases hK : tmuxKillSession w t with w3 | w3 <;>
        simp [ha, hk, hc, hK, Effect.isExistsQuery]
  case exit => simp [ha, Effect.isExistsQuery]

/-- Variant B's interactive mode never terminates with exit code 1. -/
theorem interactiveB_outcome_ne_exitOne (w : World) (n : String) (e : Bool) (ans : Answers) :
    (interactiveB w n e ans).outcome ≠ ExitOutcome.exitOne := by
  unfold interactiveB
  split <;> try simp
  all_goals split <;> try simp
  all_goals split <;> try simp
  all_goals split <;> simp

/-- Variant A issues exactly one existence query per invocation. -/
theorem mainA_exists_once (w : World) (p : String) (b : Except String String)
    (cmd : Option String) (hf : Bool) (ans : Answers) :
    ((mainA w p b cmd hf ans).trace).countP Effect.isExistsQuery = 1 := by
  rcases hA : createSessionA w (getSessionName p b) with ⟨ce, w2, ok⟩
  have hce : ce.countP Effect.isExistsQuery = 0 := by
    have h2 := createSessionA_fst_no_exists w (getSessionName p b)
    rw [hA] at h2
    exact h2
  unfold mainA
  dsimp only
  by_cases he : sessionExists (tmuxHasSession w (getSessionName p b)) = true <;>
  by_cases h1 : (cmd == some "start" || cmd == some "s") = true <;>
  by_cases h2 : (cmd == some "attach" || cmd == some "a") = true <;>
  by_cases h3 : (cmd == some "help" || cmd == some "h" || hf) = true <;>
  rcases hcr : ans.create with _ | (_ | _) <;>
  cases ok <;>
    simp [he, h1, h2, h3, hcr, hA, hce, interactiveA_trace_no_exists,
      isExistsQuery_queryHasSession, isExistsQuery_queryListSessions, isExistsQuery_newSession,
      isExistsQuery_sendKeys, isExistsQuery_attach, isExistsQuery_kill,
      List.countP_cons, List.countP_append]

/-- Variant B issues exactly one existence query per invocation. -/
theorem mainB_exists_once (w : World) (p : String) (b : Except String String)
    (cmd : Option String) (hf : Bool) (ans : Answers) :
    ((mainB w p b cmd hf ans).trace).countP Effect.isExistsQuery = 1 := by
  rcases hA : createSessionB w (getSessionName p b) with ⟨ce, w2, ok⟩
  have hce : ce.countP Effect.isExistsQuery = 0 := by
    have h2 := createSessionB_fst_no_exists w (getSessionName p b)
    rw [hA] at h2
    exact h2
  unfold mainB
  dsimp only
  by_cases h0 : isFalsy cmd = true <;>
  by_cases he : sessionExists (tmuxHasSession w (getSessionName p b)) = true <;>
  by_cases h1 : (cmd == some "start" || cmd == some "s") = true <;>
  by_cases h2 : (cmd == some "attach" || cmd == some "a") = true <;>
  by_cases h3 : (cmd == some "menu" || cmd == some "m") = true <;>
  by_cases h4 : (cmd == some "help" || cmd == some "h" || hf) = true <;>
  rcases hcr : ans.create with _ | (_ | _) <;>
  cases ok <;>
    simp [h0, he, h1, h2, h3, h4, hcr, hA, hce, interactiveB_trace_no_exists,
      isExistsQuery_queryHasSession, isExistsQuery_queryListSessions, isExistsQuery_newSession,
      isExistsQuery_sendKeys, isExistsQuery_attach, isExistsQuery_kill,
      List.countP_cons, List.countP_append]

/-! Claim theorems. -/

/-- C1, counterexample: with working directory `/` the folder segment is
empty and the branch query returns `main`, yet the resolved identifier is
`tmuxdev-main` — neither the literal `tmuxdev` that the claim requires for
an empty folder segment, nor `segment ++ "-" ++ branch`. -/
theorem c1_counterexample :
    lastSegment "/" = "" ∧ getBranchName (Except.ok "main") = "main" ∧
    getSessionName "/" (Except.ok "main") = "tmuxdev-main" ∧
    getSessionName "/" (Except.ok "main") ≠ "tmuxdev" ∧
    getSessionName "/" (Except.ok "main") ≠
      lastSegment "/" ++ "-" ++ getBranchName (Except.ok "main") := by
  decide

/-- C1, amended: the resolved identifier equals the last `/`-separated
segment of the working directory when no branch is detected and that
segment is non-empty; equals `segment-branch` when a non-empty branch is
detected and the segment is non-empty; when the folder segment is empty the
fallback token `tmuxdev` takes the segment's place (so the identifier is
`tmuxdev` with no branch and `tmuxdev-branch` with one); and the identifier
is never the empty string. -/
theorem c1_resolved_identifier (p : String) (b : Except String String) :
    (getBranchName b = "" → lastSegment p ≠ "" → getSessionName p b = lastSegment p) ∧
    (getBranchName b = "" → lastSegment p = "" → getSessionName p b = "tmuxdev") ∧
    (getBranchName b ≠ "" → lastSegment p ≠ "" →
      getSessionName p b = lastSegment p ++ "-" ++ getBranchName b) ∧
    (getBranchName b ≠ "" → lastSegment p = "" →
      getSessionName p b = "tmuxdev" ++ "-" ++ getBranchName b) ∧
    getSessionName p b ≠ "" := by
  refine ⟨?_, ?_, ?_, ?_, ?_⟩
  · intro hb hseg; rw [getSessionName_eq, getFolderName_eq]; simp [hb, hseg]
  · intro hb hseg; rw [getSessionName_eq, getFolderName_eq]; simp [hb, hseg]
  · intro hb hseg; rw [getSessionName_eq, getFolderName_eq]; simp [hb, hseg]
  · intro hb hseg; rw [getSessionName_eq, getFolderName_eq]; simp [hb, hseg]
  · rw [getSessionName_eq, getFolderName_eq]
    by_cases hb : getBranchName b = "" <;> by_cases hseg : lastSegment p = ""
    · simp [hb, hseg]
    · simp [hb, hseg]
    · rw [if_pos hb, if_pos hseg]
      exact append_ne_empty_left _ _ (append_ne_empty_left _ _ (by decide))
    · rw [if_pos hb, if_neg hseg]
      exact append_ne_empty_left _ _ (append_ne_empty_left _ _ hseg)

/-- C1, witness: a concrete instantiation of the amended claim with a
non-empty folder segment and a detected branch. -/
theorem c1_resolved_identifier_witness :
    getBranchName (Except.ok "main\n") ≠ "" ∧ lastSegment "/home/u/app" ≠ "" ∧
    getSessionName "/home/u/app" (Except.ok "main\n") =
      lastSegment "/home/u/app" ++ "-" ++ getBranchName (Except.ok "main\n") :=
  ⟨by decide, by decide,
    (c1_resolved_identifier "/home/u/app" (Except.ok "main\n")).2.2.1 (by decide) (by decide)⟩

/-- C4, counterexample: a genuine attach failure — the external call threw
with exit code 1 — is swallowed exactly like a clean detach: the adapter's
empty `catch` block makes both indistinguishable to the caller, refuting
the claim that only a code-0 detach is swallowed. -/
theorem c4_counterexample :
    attachSession (Except.error 1) = Except.ok () ∧
    attachSession (Except.error 1) = attachSession (Except.ok ()) := by
  decide

/-- C4, amended: the attach adapter treats every termination of the
external attach call — normal user-initiated detach (exit code 0) and
genuine failure (non-zero exit or exception) alike — as success: the
blanket `catch` swallows all failure signals without distinguishing them. -/
theorem c4_attach_blanket_suppression (r : Except Nat Unit) :
    attachSession r = Except.ok () := by
  cases r <;> rfl

/-- C8: `sessionExists` maps every query failure to `false` and
`getAllSessions` maps every query failure to the empty list; both are total
functions of the query result, so no failure is ever propagated. -/
theorem c8_query_failure_recovery (msg : String) :
    sessionExists (Except.error msg) = false ∧ getAllSessions (Except.error msg) = [] :=
  ⟨rfl, rfl⟩

/-- C10: for every raw `tmux list-sessions` result, every session name that
`getAllSessions` returns is non-empty — blank lines are removed by the
filter, and a failed query yields the empty list. -/
theorem c10_no_blank_session_names (raw : Except String String) (s : String)
    (hs : s ∈ getAllSessions raw) : s ≠ "" := by
  cases raw with
  | error _ => simp [getAllSessions] at hs
  | ok out =>
    have hmem : s ∈ jsSplit '\n' (jsTrim out) ∧ ¬s = "" := by
      simpa [getAllSessions] using hs
    exact hmem.2

/-- C10, witness: on a raw listing with a blank line, `"a"` is among the
returned names and is non-empty. -/
theorem c10_no_blank_session_names_witness :
    "a" ∈ getAllSessions (Except.ok "a\n\nb\n") ∧ "a" ≠ "" :=
  ⟨by decide, c10_no_blank_session_names (Except.ok "a\n\nb\n") "a" (by decide)⟩

/-- C2, counterexample: in the `src/tmuxdev.ts` variant an invocation with
no command argument and a non-existing session does not create or attach —
it enters the interactive menu (querying the session list), presents a
prompt whose answers change the result, and with the prompt interrupted
terminates having mutated nothing. -/
theorem c2_counterexample :
    (mainA ⟨true, []⟩ "/p/app" (Except.error "g") none false allCancelled).trace =
      [Effect.queryHasSession "app", Effect.queryListSessions] ∧
    (∀ e ∈ (mainA ⟨true, []⟩ "/p/app" (Except.error "g") none false allCancelled).trace,
      e.isMutation = false) ∧
    (mainA ⟨true, []⟩ "/p/app" (Except.error "g") none false allCancelled).outcome =
      ExitOutcome.exitZero ∧
    mainA ⟨true, []⟩ "/p/app" (Except.error "g") none false allCancelled ≠
      mainA ⟨true, []⟩ "/p/app" (Except.error "g") none false
        ⟨none, some ActionChoice.createCurrent, some true, none, none, none⟩ := by
  decide

/-- C2, amended: for every invocation with command `start` or `s` (in both
variants), and for a no-command invocation in the second variant only, the
behavior is prompt-free (independent of all prompt answers): if the session
exists the program attaches to it, and otherwise (with tmux available) it
creates the session and then attaches.  In the `src/tmuxdev.ts` variant a
no-command invocation instead enters the interactive menu. -/
theorem c2_start_mode (w : World) (p : String) (b : Except String String)
    (cmd : Option String) (hf : Bool) (ans ans' : Answers)
    (hcmd : cmd = some "start" ∨ cmd = some "s")
    (hinst : w.tmuxInstalled = true) :
    mainA w p b cmd hf ans = mainA w p b cmd hf ans' ∧
    mainB w p b cmd hf ans = mainB w p b cmd hf ans' ∧
    mainB w p b none hf ans = mainB w p b cmd hf ans ∧
    (sessionExists (tmuxHasSession w (getSessionName p b)) = true →
      mainA w p b cmd hf ans =
        ⟨[Effect.queryHasSession (getSessionName p b),
          Effect.attach (getSessionName p b)], w, ExitOutcome.normal⟩ ∧
      mainB w p b cmd hf ans =
        ⟨[Effect.queryHasSession (getSessionName p b),
          Effect.attach (getSessionName p b)], w, ExitOutcome.normal⟩) ∧
    (sessionExists (tmuxHasSession w (getSessionName p b)) = false →
      mainA w p b cmd hf ans =
        ⟨[Effect.queryHasSession (getSessionName p b),
          Effect.newSession (getSessionName p b) (some "pnpm dev"),
          Effect.attach (getSessionName p b)],
         { w with registry := w.registry ++ [getSessionName p b] }, ExitOutcome.normal⟩ ∧
      mainB w p b cmd hf ans =
        ⟨[Effect.queryHasSession (getSessionName p b),
          Effect.newSession (getSessionName p b) none,
          Effect.sendKeys (getSessionName p b) "npm run dev",
          Effect.attach (getSessionName p b)],
         { w with registry := w.registry ++ [getSessionName p b] }, ExitOutcome.normal⟩) := by
  refine ⟨?_, ?_, ?_, ?_, ?_⟩
  · rcases hcmd with rfl | rfl <;>
    · by_cases he : sessionExists (tmuxHasSession w (getSessionName p b)) = true <;>
        simp_all [mainA]
  · rcases hcmd with rfl | rfl <;>
    · by_cases he : sessionExists (tmuxHasSession w (getSessionName p b)) = true <;>
        simp_all [mainB, isFalsy]
  · rcases hcmd with rfl | rfl <;>
    · by_cases he : sessionExists (tmuxHasSession w (getSessionName p b)) = true <;>
        simp_all [mainB, isFalsy]
  · intro he
    rcases hcmd with rfl | rfl <;> simp [mainA, mainB, isFalsy, he]
  · intro he
    have hnm := notMem_of_sessionExists_false w (getSessionName p b) hinst he
    have hA := createSessionA_ok w (getSessionName p b) hinst hnm
    have hB := createSessionB_ok w (getSessionName p b) hinst hnm
    rcases hcmd with rfl | rfl <;> simp [mainA, mainB, isFalsy, he, hA, hB]

/-- C2, witness: a concrete start-mode run that creates and attaches. -/
theorem c2_start_mode_witness :
    mainA ⟨true, []⟩ "/p/app" (Except.error "g") (some "start") false allCancelled =
      ⟨[Effect.queryHasSession "app", Effect.newSession "app" (some "pnpm dev"),
        Effect.attach "app"], ⟨true, ["app"]⟩, ExitOutcome.normal⟩ := by
  have h := (c2_start_mode ⟨true, []⟩ "/p/app" (Except.error "g") (some "start") false
      allCancelled allCancelled (Or.inl rfl) rfl).2.2.2.2 (by decide)
  exact h.1.trans (by decide)

/-- C3: in both variants, the attach-only command on a non-existing
session prompts; on an affirmative answer it creates the session and then
attaches, and on a decline it terminates normally having issued no create,
attach, or kill, so the session still does not exist afterwards. -/
theorem c3_attach_only (w : World) (p : String) (b : Except String String)
    (cmd : Option String) (hf : Bool) (ans : Answers)
    (hcmd : cmd = some "attach" ∨ cmd = some "a")
    (hno : sessionExists (tmuxHasSession w (getSessionName p b)) = false)
    (hinst : w.tmuxInstalled = true) :
    (ans.create = some true →
      (mainA w p b cmd hf ans).trace =
        [Effect.queryHasSession (getSessionName p b),
         Effect.newSession (getSessionName p b) (some "pnpm dev"),
         Effect.attach (getSessionName p b)] ∧
      (mainB w p b cmd hf ans).trace =
        [Effect.queryHasSession (getSessionName p b),
         Effect.newSession (getSessionName p b) none,
         Effect.sendKeys (getSessionName p b) "npm run dev",
         Effect.attach (getSessionName p b)]) ∧
    (ans.create = some false →
      mainA w p b cmd hf ans =
        ⟨[Effect.queryHasSession (getSessionName p b)], w, ExitOutcome.normal⟩ ∧
      mainB w p b cmd hf ans =
        ⟨[Effect.queryHasSession (getSessionName p b)], w, ExitOutcome.normal⟩ ∧
      sessionExists (tmuxHasSession (mainA w p b cmd hf ans).world (getSessionName p b)) = false ∧
      sessionExists (tmuxHasSession (mainB w p b cmd hf ans).world (getSessionName p b)) = false) := by
  have hnm := notMem_of_sessionExists_false w (getSessionName p b) hinst hno
  have hA := createSessionA_ok w (getSessionName p b) hinst hnm
  have hB := createSessionB_ok w (getSessionName p b) hinst hnm
  constructor
  · intro hc
    rcases hcmd with rfl | rfl <;>
      simp [mainA, mainB, hno, hc, hA, hB, isFalsy]
  · intro hc
    rcases hcmd with rfl | rfl <;>
      simp [mainA, mainB, hno, hc, isFalsy]

/-- C3, witness: declining the prompt leaves the world untouched. -/
theorem c3_attach_only_witness :
    mainA ⟨true, []⟩ "/p/app" (Except.error "g") (some "attach") false
      ⟨some false, none, none, none, none, none⟩ =
      ⟨[Effect.queryHasSession "app"], ⟨true, []⟩, ExitOutcome.normal⟩ := by
  have h := (c3_attach_only ⟨true, []⟩ "/p/app" (Except.error "g") (some "attach") false
      ⟨some false, none, none, none, none, none⟩ (Or.inl rfl) (by decide) rfl).2 rfl
  exact h.1.trans (by decide)

/-- C5, counterexample: an unknown command in the second variant does exit
with status 1, but its trace still contains the initial registry existence
query, refuting `performs no registry query`; and in the `src/tmuxdev.ts`
variant an unknown command does not exit with status 1 at all. -/
theorem c5_counterexample :
    Effect.queryHasSession "app" ∈
      (mainB ⟨true, ["app"]⟩ "/p/app" (Except.error "g") (some "foo") false allCancelled).trace ∧
    (mainB ⟨true, ["app"]⟩ "/p/app" (Except.error "g") (some "foo") false allCancelled).outcome =
      ExitOutcome.exitOne ∧
    (mainA ⟨true, ["app"]⟩ "/p/app" (Except.error "g") (some "foo") false allCancelled).outcome ≠
      ExitOutcome.exitOne := by
  decide

/-- C5, amended: in the second variant an unrecognized command terminates
with exit status 1 after only the initial existence query — no further
registry query and no mutation — and this is the only path of that variant
that exits non-zero; the `src/tmuxdev.ts` variant does not reject unknown
commands (they fall through to the interactive menu). -/
theorem c5_unknown_command (w : World) (p : String) (b : Except String String)
    (cmd : Option String) (hf : Bool) (ans : Answers) :
    (isKnownCommandB cmd hf = false →
      mainB w p b cmd hf ans =
        ⟨[Effect.queryHasSession (getSessionName p b)], w, ExitOutcome.exitOne⟩) ∧
    ((mainB w p b cmd hf ans).outcome = ExitOutcome.exitOne →
      isKnownCommandB cmd hf = false) := by
  constructor
  · intro hk
    simp only [isKnownCommandB, Bool.or_eq_false_iff] at hk
    obtain ⟨⟨⟨⟨⟨⟨⟨⟨⟨h1, h2⟩, h3⟩, h4⟩, h5⟩, h6⟩, h7⟩, h8⟩, h9⟩, h10⟩ := hk
    simp [mainB, h1, h2, h3, h4, h5, h6, h7, h8, h9, h10]
  · intro hout
    unfold mainB at hout
    dsimp only at hout
    repeat' split at hout
    all_goals simp_all [isKnownCommandB, interactiveB_outcome_ne_exitOne]

/-- C5, witness: a concrete unknown command exits 1 with just the
existence query in its trace. -/
theorem c5_unknown_command_witness :
    mainB ⟨true, []⟩ "/p/app" (Except.error "g") (some "foo") false allCancelled =
      ⟨[Effect.queryHasSession "app"], ⟨true, []⟩, ExitOutcome.exitOne⟩ := by
  have h := (c5_unknown_command ⟨true, []⟩ "/p/app" (Except.error "g") (some "foo") false
      allCancelled).1 (by decide)
  exact h.trans (by decide)

/-- C6: in both variants' menu kill flow, after a target is selected the
kill is issued only on the second explicit confirmation: on affirmation
the target's existence flips to false; on decline or interruption no kill
effect is issued and the world — hence the target's existence — is
unchanged; and a kill effect in the trace implies the confirmation was an
explicit yes. -/
theorem c6_kill_second_confirmation (w : World) (n t : String) (e : Bool) (ans : Answers)
    (ha : ans.action = some ActionChoice.killSession)
    (ht : ans.sessionToKill = some t)
    (hinst : w.tmuxInstalled = true) (hmem : t ∈ w.registry) :
    (ans.confirmKill = some true →
      sessionExists (tmuxHasSession (interactiveA w n e ans).world t) = false ∧
      sessionExists (tmuxHasSession (interactiveB w n e ans).world t) = false ∧
      Effect.kill t ∈ (interactiveA w n e ans).trace ∧
      Effect.kill t ∈ (interactiveB w n e ans).trace) ∧
    (ans.confirmKill = some false ∨ ans.confirmKill = none →
      (interactiveA w n e ans).world = w ∧
      (interactiveB w n e ans).world = w ∧
      sessionExists (tmuxHasSession (interactiveA w n e ans).world t) = true ∧
      sessionExists (tmuxHasSession (interactiveB w n e ans).world t) = true ∧
      (∀ s, Effect.kill s ∉ (interactiveA w n e ans).trace) ∧
      (∀ s, Effect.kill s ∉ (interactiveB w n e ans).trace)) ∧
    ((∃ s, Effect.kill s ∈ (interactiveA w n e ans).trace) → ans.confirmKill = some true) ∧
    ((∃ s, Effect.kill s ∈ (interactiveB w n e ans).trace) → ans.confirmKill = some true) := by
  have hkill : tmuxKillSession w t =
      Except.ok { w with registry := w.registry.filter fun s => decide (s ≠ t) } := by
    simp [tmuxKillSession, hinst, hmem]
  refine ⟨?_, ?_, ?_, ?_⟩
  · intro hc
    simp [interactiveA, interactiveB, ha, ht, hc, hkill, sessionExists, tmuxHasSession,
      List.mem_filter]
  · rintro (hc | hc) <;>
      simp [interactiveA, interactiveB, ha, ht, hc, sessionExists, tmuxHasSession, hinst, hmem]
  · intro ⟨s, hs⟩
    rcases hck : ans.confirmKill with _ | bv
    · simp [interactiveA, ha, ht, hck] at hs
    · cases bv
      · simp [interactiveA, ha, ht, hck] at hs
      · rfl
  · intro ⟨s, hs⟩
    rcases hck : ans.confirmKill with _ | bv
    · simp [interactiveB, ha, ht, hck] at hs
    · cases bv
      · simp [interactiveB, ha, ht, hck] at hs
      · rfl

/-- C6, witness: an affirmed kill makes the target's existence false. -/
theorem c6_kill_second_confirmation_witness :
    sessionExists (tmuxHasSession
      (interactiveA ⟨true, ["x"]⟩ "n" false
        ⟨none, some ActionChoice.killSession, none, none, some "x", some true⟩).world "x") =
      false := by
  have h := (c6_kill_second_confirmation ⟨true, ["x"]⟩ "n" "x" false
      ⟨none, some ActionChoice.killSession, none, none, some "x", some true⟩
      rfl rfl rfl (by decide)).1 rfl
  exact h.1

/-- C7, counterexample: in the `src/tmuxdev.ts` variant, interrupting the
`attach now?` prompt after a successful menu create is not caught — the
rejection reaches the top-level handler and is logged as an error (rather
than the clean caught exit), refuting `never logged as an error`; the
process still exits 0 and the created session stays committed. -/
theorem c7_counterexample :
    (mainA ⟨true, []⟩ "/p/app" (Except.error "g") none false
      ⟨none, some ActionChoice.createCurrent, none, none, none, none⟩).outcome =
      ExitOutcome.errorLogged ∧
    ExitOutcome.errorLogged ≠ ExitOutcome.exitZero ∧
    exitCode ExitOutcome.errorLogged = 0 ∧
    (mainA ⟨true, []⟩ "/p/app" (Except.error "g") none false
      ⟨none, some ActionChoice.createCurrent, none, none, none, none⟩).world =
      ⟨true, ["app"]⟩ := by
  decide

/-- C7, amended: every prompt interruption terminates the process with exit
code 0 and performs no mutation from that point on, and a cancelled
`attach now?` after a successful create leaves the created session
committed; in the second variant every interruption is caught cleanly,
while in the `src/tmuxdev.ts` variant only the main menu prompt is caught —
interruptions of the later prompts propagate to the top-level handler,
which logs the error but still exits 0. -/
theorem c7_cancellation (w : World) (p : String) (b : Except String String)
    (hf : Bool) (n : String) (e : Bool) (ans : Answers) :
    (ans.action = none →
      interactiveA w n e ans = ⟨[Effect.queryListSessions], w, ExitOutcome.exitZero⟩ ∧
      interactiveB w n e ans = ⟨[Effect.queryListSessions], w, ExitOutcome.exitZero⟩) ∧
    (ans.action = some ActionChoice.selectExisting → ans.selectedSession = none →
      interactiveA w n e ans = ⟨[Effect.queryListSessions], w, ExitOutcome.errorLogged⟩ ∧
      interactiveB w n e ans = ⟨[Effect.queryListSessions], w, ExitOutcome.exitZero⟩) ∧
    (ans.action = some ActionChoice.killSession →
      ans.sessionToKill = none ∨ (∃ t, ans.sessionToKill = some t ∧ ans.confirmKill = none) →
      (interactiveA w n e ans).world = w ∧ (interactiveB w n e ans).world = w ∧
      exitCode (interactiveA w n e ans).outcome = 0 ∧
      exitCode (interactiveB w n e ans).outcome = 0) ∧
    (ans.action = some ActionChoice.createCurrent → ans.attachNow = none →
      w.tmuxInstalled = true → n ∉ w.registry →
      (interactiveA w n e ans).world = { w with registry := w.registry ++ [n] } ∧
      (interactiveB w n e ans).world = { w with registry := w.registry ++ [n] } ∧
      (interactiveA w n e ans).outcome = ExitOutcome.errorLogged ∧
      (interactiveB w n e ans).outcome = ExitOutcome.exitZero ∧
      exitCode (interactiveA w n e ans).outcome = 0 ∧
      exitCode (interactiveB w n e ans).outcome = 0 ∧
      Effect.attach n ∉ (interactiveA w n e ans).trace ∧
      Effect.attach n ∉ (interactiveB w n e ans).trace) ∧
    (∀ cmd, cmd = some "attach" ∨ cmd = some "a" →
      sessionExists (tmuxHasSession w (getSessionName p b)) = false → ans.create = none →
      mainA w p b cmd hf ans =
        ⟨[Effect.queryHasSession (getSessionName p b)], w, ExitOutcome.errorLogged⟩ ∧
      mainB w p b cmd hf ans =
        ⟨[Effect.queryHasSession (getSessionName p b)], w, ExitOutcome.exitZero⟩) := by
  refine ⟨?_, ?_, ?_, ?_, ?_⟩
  · intro hc
    simp [interactiveA, interactiveB, hc]
  · intro ha hc
    simp [interactiveA, interactiveB, ha, hc]
  · rintro ha (hc | ⟨t, ht, hc⟩)
    · simp [interactiveA, interactiveB, ha, hc, exitCode]
    · rcases hck : tmuxKillSession w t with w' | w' <;>
        simp [interactiveA, interactiveB, ha, ht, hc, exitCode]
  · intro ha hc hinst hnm
    have hA := createSessionA_ok w n hinst hnm
    have hB := createSessionB_ok w n hinst hnm
    simp [interactiveA, interactiveB, ha, hc, hA, hB, exitCode]
  · intro cmd hcmd hno hc
    rcases hcmd with rfl | rfl <;> simp [mainA, mainB, isFalsy, hno, hc]

/-- C7, witness: an interrupted main menu prompt exits cleanly with code 0
and no mutation. -/
theorem c7_cancellation_witness :
    interactiveA ⟨true, []⟩ "n" false allCancelled =
      ⟨[Effect.queryListSessions], ⟨true, []⟩, ExitOutcome.exitZero⟩ :=
  ((c7_cancellation ⟨true, []⟩ "/p" (Except.error "g") false "n" false allCancelled).1 rfl).1

/-- C9: both variants issue the existence query exactly once per
invocation — in particular it is never re-queried between building the menu
choices and acting on them — and the choice list offers `attach-current`
exactly when that single query returned true and `create-current` exactly
when it returned false. -/
theorem c9_exists_queried_once (w : World) (p : String) (b : Except String String)
    (cmd : Option String) (hf : Bool) (ans : Answers) (e : Bool) (ss : List String) :
    ((mainA w p b cmd hf ans).trace).countP Effect.isExistsQuery = 1 ∧
    ((mainB w p b cmd hf ans).trace).countP Effect.isExistsQuery = 1 ∧
    (ActionChoice.attachCurrent ∈ buildChoices e ss ↔ e = true) ∧
    (ActionChoice.createCurrent ∈ buildChoices e ss ↔ e = false) := by
  refine ⟨mainA_exists_once w p b cmd hf ans, mainB_exists_once w p b cmd hf ans, ?_, ?_⟩ <;>
    cases e <;> cases ss <;> simp [buildChoices]

end Tmuxdev
